import Mathlib

/-!
Verification of the weather repository geolocation handoff server
(src/weather/gps_server/listener.py) and the rain-probability derivation
(src/weather/weather.py), as a shallow embedding in Lean 4.

The listener is modelled as a sequential state machine: the request handler
(GPSLocationHandler.do_GET / do_POST) becomes a pure function on a parsed
request producing its performed side effects (an event list, an optional
Handoff Record write, the shutdown-request flag) and either a completed
response status or the fact that the handler never completes.

ShutdownableTCPServer is a plain single-threaded socketserver.TCPServer,
and serve_forever runs on the same thread as the handlers. On the valid
POST branch do_POST calls self.server.shutdown() (line 100) BEFORE
send_response: BaseServer.shutdown sets the stop flag and then waits on
the internal is-shut-down event, which only serve_forever itself can set
after its loop exits - impossible while the handler is still on that
thread. So the shutdown call never returns: the 200 is never sent, the
handler never completes, and serve_forever never returns. The model
records this with status none for the hanging handler and a run outcome
blocksForever. Likewise a run whose request stream never reaches the
valid branch leaves serve_forever blocked waiting for connections, so
after a successful bind get_gps_location never returns at all and the
post-shutdown read of lines 142 to 153 is dead code on every run; that
read block is still modelled in isolation (readPhase) because several
claims speak about it.

get_gps_location becomes a function of an environment describing the
fault points of the Python run (pre-run cleanup remove failure, bind
failure) and the request stream, with outcome: a propagated exception, a
normal return, or never returning. The Handoff Record file is modelled as
an optional content, where the content is itself an Option Json: some j
means the file parses to j, none means json.load raises on it (malformed
bytes).
-/

namespace Weather

/-- JSON values, as produced by json.loads. Numbers are modelled as
rationals (exact decimal literals of the claims are representable). -/
inductive Json where
  | null
  | num (q : ℚ)
  | str (s : String)
  | obj (fields : List (String × Json))

/-- Python dict.get on a dict built by json.loads: the last binding of a
key wins (json.loads keeps the last duplicate), a missing key and an
explicit JSON null both come back as Python None, modelled as none. -/
def dictGet (fields : List (String × Json)) (k : String) : Option Json :=
  match fields.foldl (fun acc p => if p.1 = k then some p.2 else acc)
      (none : Option Json) with
  | some Json.null => none
  | some v => some v
  | none => none

/-- Whether a JSON value is an object; json.loads turns exactly these
into Python dicts, on everything else .get raises AttributeError. -/
def Json.isObj : Json → Bool
  | Json.obj _ => true
  | _ => false

/-- The body of a POST request as it looks after the read/decode/parse
prefix of do_POST: malformed stands for any body on which reading
Content-Length, decoding or json.loads raises; parsed j is a body that
json.loads turns into the JSON value j. -/
inductive PostBody where
  | malformed
  | parsed (j : Json)

/-- HTTP method of an incoming request. The handler class defines do_GET
and do_POST; every other method is answered by the http.server base class
with 501 Unsupported method. -/
inductive Method where
  | GET
  | POST
  | PUT
  | DELETE

/-- An incoming HTTP request. The body is only meaningful for POST. -/
structure Request where
  method : Method
  path : String
  body : PostBody

/-- Build a request from its three parts. -/
def mkRequest (m : Method) (path : String) (b : PostBody) : Request :=
  { method := m, path := path, body := b }

/-- Response body variants the handler can produce: no body, the static
HTML page, or a JSON body. -/
inductive RespBody where
  | empty
  | page
  | jsonBody (j : Json)

/-- Side-effect events actually performed by one handler invocation, in
program order: writing the Handoff Record file, entering the
self.server.shutdown call, and sending the HTTP response with the given
status code. On the valid POST branch the shutdown call never returns,
so no sendResponse event follows requestShutdown there. -/
inductive Event where
  | writeRecord
  | requestShutdown
  | sendResponse (status : Nat)
  deriving DecidableEq

/-- Result of one handler invocation: status is some s when the handler
completes and answers s, and none when the handler never completes
because it is blocked forever inside self.server.shutdown; respBody is
the body of the completed response (empty when none was sent); events is
the ordered list of side effects actually performed; fileWritten the
Handoff Record content written, if any; shutdown whether the
shutdown-request flag of the server was set. -/
structure HandlerResult where
  status : Option Nat
  respBody : RespBody
  events : List Event
  fileWritten : Option Json
  shutdown : Bool

/-- GPSLocationHandler.do_GET: every GET is answered 200 text/html with
the static page; no record is written and no shutdown is requested. -/
def do_GET : HandlerResult :=
  { status := some 200, respBody := RespBody.page, events := [Event.sendResponse 200],
    fileWritten := none, shutdown := false }

/-- GPSLocationHandler.do_POST. On path /location_data the body is read
and parsed inside a try block: a body that raises is answered 500; a
parsed non-dict raises AttributeError on data.get and is likewise
answered 500; a dict whose latitude and longitude are both present and
non-null leads to the record write and then the call to
self.server.shutdown, which on this single-threaded server blocks
forever, so the 200 success response of line 103 is never sent and the
handler never completes (status none); a dict failing the presence check
falls through to the 404 at the end of the method, as does any other
path. -/
def do_POST (path : String) (body : PostBody) : HandlerResult :=
  if path = "/location_data" then
    match body with
    | PostBody.malformed =>
        { status := some 500, respBody := RespBody.empty, events := [Event.sendResponse 500],
          fileWritten := none, shutdown := false }
    | PostBody.parsed (Json.obj fields) =>
        match dictGet fields "latitude", dictGet fields "longitude" with
        | some lat, some lon =>
            { status := none,
              respBody := RespBody.empty,
              events := [Event.writeRecord, Event.requestShutdown],
              fileWritten := some (Json.obj [("latitude", lat), ("longitude", lon)]),
              shutdown := true }
        | _, _ =>
            { status := some 404, respBody := RespBody.empty,
              events := [Event.sendResponse 404], fileWritten := none, shutdown := false }
    | PostBody.parsed _ =>
        { status := some 500, respBody := RespBody.empty, events := [Event.sendResponse 500],
          fileWritten := none, shutdown := false }
  else
    { status := some 404, respBody := RespBody.empty, events := [Event.sendResponse 404],
      fileWritten := none, shutdown := false }

/-- Dispatch of one request by the handler: do_GET for GET, do_POST for
POST, and the 501 Unsupported method answer of BaseHTTPRequestHandler for
any method without a do_ handler (PUT, DELETE). -/
def handleRequest (r : Request) : HandlerResult :=
  match r.method with
  | Method.GET => do_GET
  | Method.POST => do_POST r.path r.body
  | _ =>
      { status := some 501, respBody := RespBody.empty, events := [Event.sendResponse 501],
        fileWritten := none, shutdown := false }

/-- Content of the Handoff Record file: some j when json.load of the file
yields j, none when the bytes are malformed and json.load raises. -/
abbrev FileContent := Option Json

/-- An HTTP response as seen by the client. -/
structure Response where
  status : Nat
  body : RespBody

/-- serve_forever, sequentially: requests are handled one at a time; a
handler that writes the record replaces the file. A handler that blocks
forever inside shutdown (status none) never completes, so no response is
delivered for it, later requests are never served and the serve thread is
stuck from then on; exhausting the request stream leaves serve_forever
blocked waiting for further connections. In both cases serve_forever
never returns: the pair returned here is only the file state on disk and
the responses delivered up to the point where the thread is stuck. -/
def serveLoop : List Request → Option FileContent → Option FileContent × List Response
  | [], file => (file, [])
  | r :: rest, file =>
      let res := handleRequest r
      let file' := match res.fileWritten with
        | some j => some (some j)
        | none => file
      match res.status with
      | none => (file', [])
      | some s =>
          let next := serveLoop rest file'
          (next.1, { status := s, body := res.respBody } :: next.2)

/-- The post-shutdown read block of get_gps_location, lines 142 to 153,
modelled in isolation and run inside the surrounding try block (in a real
run this block is dead code, because serve_forever never returns): if the
file is absent, fall through and return None; if json.load raises on it,
the exception is caught by the outer except and None is returned, the
file is NOT removed because os.remove comes after json.load; if the
content is a non-dict, coords.get raises AttributeError before os.remove,
so the file again stays and None is returned; if the content is a dict,
both gets run, the file is removed, and the pair is returned exactly when
both values are present and non-null. Returns (result, file state
afterwards). -/
def readPhase : Option FileContent → Option (Json × Json) × Option FileContent
  | none => (none, none)
  | some none => (none, some none)
  | some (some (Json.obj fields)) =>
      match dictGet fields "latitude", dictGet fields "longitude" with
      | some lat, some lon => (some (lat, lon), none)
      | _, _ => (none, none)
  | some (some j) => (none, some (some j))

/-- Environment of one get_gps_location run: the Handoff Record present
at entry (leftover of a prior run), whether the pre-run cleanup os.remove
raises, whether binding the listening socket raises, and the stream of
requests the browser sends while the server runs. -/
structure Env where
  initialFile : Option FileContent
  cleanupRemoveFails : Bool
  bindFails : Bool
  requests : List Request

/-- How one get_gps_location call ends: returns r when the function
returns the value r normally, raises when a Python exception escapes it,
blocksForever when the call never returns. -/
inductive RunOutcome where
  | returns (r : Option (Json × Json))
  | raises
  | blocksForever

/-- Outcome of one get_gps_location run: how the call ends, the Handoff
Record file state left on disk, and the responses delivered to the
client. -/
structure RunResult where
  outcome : RunOutcome
  finalFile : Option FileContent
  responses : List Response

/-- get_gps_location. The pre-run cleanup (lines 132 to 133) runs before
the try block: when a record exists and os.remove raises, the exception
propagates to the caller. Then, inside the try: server construction; a
bind failure raises, is caught by the except and turns into a None
return. Otherwise serve_forever runs on this same thread and never
returns: a valid POST leaves its handler blocked forever inside
self.server.shutdown (the record already written, no response sent), and
any other request stream leaves the loop blocked waiting for connections;
either way the call never returns and the read of lines 142 to 153 is
never reached. -/
def getGpsLocation (env : Env) : RunResult :=
  if env.initialFile.isSome && env.cleanupRemoveFails then
    { outcome := RunOutcome.raises, finalFile := env.initialFile, responses := [] }
  else if env.bindFails then
    { outcome := RunOutcome.returns none, finalFile := none, responses := [] }
  else
    let served := serveLoop env.requests none
    { outcome := RunOutcome.blocksForever, finalFile := served.1, responses := served.2 }

/-- The pop field of one forecast entry as the loop in
fetch_weather_details sees it: absent covers both a missing key and an
explicit JSON null (both give Python None, substituted by 0.0); num is a
value float() accepts, modelled as an exact rational; bad is a value on
which float() raises, so the entry is skipped by the continue. -/
inductive PopVal where
  | absent
  | num (q : ℚ)
  | bad

/-- One element of the forecast list: either not a dict (skipped by the
isinstance check) or a dict with the given pop field. -/
inductive FEntry where
  | nonDict
  | entry (pop : PopVal)

/-- The per-entry normalization of fetch_weather_details, lines 106 to
117: None becomes 0.0; a negative value becomes 0.0; a value in the
interval (1, 100] is divided by 100; a value above 100 is clamped to 1 by
max(0.0, min(1.0, p)); a value already in [0, 1] is kept. -/
def normalizePop (p : ℚ) : ℚ :=
  let p1 := if p < 0 then 0 else p
  if p1 > 1 then
    if p1 > 1 ∧ p1 ≤ 100 then p1 / 100 else max 0 (min 1 p1)
  else p1

/-- The pops accumulation loop of fetch_weather_details, lines 100 to
121: non-dict entries and entries whose pop makes float() raise are
skipped; every other entry contributes its normalized pop (absent pop
contributing normalizePop 0). -/
def collectPops : List FEntry → List ℚ
  | [] => []
  | FEntry.nonDict :: rest => collectPops rest
  | FEntry.entry PopVal.bad :: rest => collectPops rest
  | FEntry.entry PopVal.absent :: rest => normalizePop 0 :: collectPops rest
  | FEntry.entry (PopVal.num q) :: rest => normalizePop q :: collectPops rest

/-- Python max over a nonempty list, folding from the head. -/
def maxPops (p : ℚ) (ps : List ℚ) : ℚ :=
  ps.foldl max p

/-- Round half to even, as the Python format .0f does on the exact value
(the concrete claims stay away from a binary-float rounding boundary, so
the exact-rational model agrees with the float computation there). -/
def roundHalfEven (q : ℚ) : ℤ :=
  let fl := ⌊q⌋
  let frac := q - fl
  if frac < 1 / 2 then fl
  else if frac > 1 / 2 then fl + 1
  else if fl % 2 = 0 then fl else fl + 1

/-- The f-string of line 124: max_pop times 100 formatted .0f, then a
percent sign. -/
def formatPercent (q : ℚ) : String :=
  toString (roundHalfEven (q * 100)) ++ "%"

/-- The rain_probability computation of fetch_weather_details, lines 93
to 126, for a forecast whose list field is present: N/A for an empty list
or when every entry is skipped; otherwise the formatted maximum of the
normalized pops of the first 8 entries. -/
def rainProbability (flist : List FEntry) : String :=
  if flist.isEmpty then "N/A"
  else
    match collectPops (flist.take 8) with
    | [] => "N/A"
    | p :: ps => formatPercent (maxPops p ps)

/-- The helper _get_api_key of weather.py: a truthy explicit key (a
non-empty string) is returned as is; otherwise the OPENWEATHER_API_KEY
environment value (modelled as the envKey argument) is returned. -/
def getApiKey (explicitKey : Option String) (envKey : Option String) : Option String :=
  match explicitKey with
  | some k => if k = "" then envKey else some k
  | none => envKey

/-- The hardcoded literal passed to _get_api_key at line 48 of
weather.py. -/
def embeddedLiteralKey : String := "dc33ba7d8d00e9fb8038ff70fd673c97"

set_option linter.unusedVariables false in
/-- The key selection actually performed by fetch_weather_details, line
48: the api_key parameter is ignored and _get_api_key is called with the
hardcoded literal, so the literal is always the key used. -/
def fetchWeatherKey (apiKeyParam : Option String) (envKey : Option String) : Option String :=
  getApiKey (some embeddedLiteralKey) envKey

/-- The JSON body of the P3 scenario: latitude 12.34, longitude 56.78. -/
def validCoordBody : Json :=
  Json.obj [("latitude", Json.num 12.34), ("longitude", Json.num 56.78)]

/-- The P3 request: a POST to /location_data carrying validCoordBody. -/
def validPostRequest : Request :=
  { method := Method.POST, path := "/location_data", body := PostBody.parsed validCoordBody }

/-- The P3 run environment: no leftover record, no fault injected, the
browser sends exactly the valid callback POST. -/
def happyEnv : Env :=
  { initialFile := none, cleanupRemoveFails := false, bindFails := false,
    requests := [validPostRequest] }

/-- The forecast list of the P7 scenario: pop values 0.1, 0.9, null, 150. -/
def p7Forecast : List FEntry :=
  [FEntry.entry (PopVal.num 0.1), FEntry.entry (PopVal.num 0.9),
   FEntry.entry PopVal.absent, FEntry.entry (PopVal.num 150)]

/-- The JSON body of the implicit non-numeric scenario: both coordinates
are strings. -/
def stringCoordBody : Json :=
  Json.obj [("latitude", Json.str "abc"), ("longitude", Json.str "xyz")]

/-- Run environment where the browser posts the non-numeric body. -/
def stringPostEnv : Env :=
  { initialFile := none, cleanupRemoveFails := false, bindFails := false,
    requests := [mkRequest Method.POST "/location_data" (PostBody.parsed stringCoordBody)] }

/-- Run environment where binding the listening socket fails. -/
def bindFailEnv : Env :=
  { initialFile := none, cleanupRemoveFails := false, bindFails := true, requests := [] }

/-- Run environment where a stale record exists and the pre-run cleanup
os.remove raises. -/
def staleCleanupFailEnv : Env :=
  { initialFile := some (some Json.null), cleanupRemoveFails := true, bindFails := false,
    requests := [] }

/-- Helper: the P7 forecast evaluates to 100 percent, because 150 is
clamped to 1 and then dominates the maximum. -/
theorem p7_rain_eval : rainProbability p7Forecast = "100%" := by
  have h : rainProbability p7Forecast
      = formatPercent (maxPops (normalizePop 0.1)
          [normalizePop 0.9, normalizePop 0, normalizePop 150]) := rfl
  have hm : maxPops (normalizePop 0.1) [normalizePop 0.9, normalizePop 0, normalizePop 150]
      = 1 := by
    norm_num [maxPops, normalizePop, List.foldl]
  have hr : roundHalfEven (1 * 100) = 100 := by
    norm_num [roundHalfEven]
  rw [h, hm, formatPercent, hr]
  decide

end Weather

namespace Weather

/-- C1: in the P3 run (no leftover record, no fault, the browser posts
latitude 12.34 and longitude 56.78 to /location_data) the program
diverges from the claimed round trip at every conjunct: the call never
returns (the handler blocks forever inside self.server.shutdown), no
response at all is delivered, and the Handoff Record written just before
the shutdown call remains on disk. -/
theorem round_trip_deadlock_C1 :
    (getGpsLocation happyEnv).outcome = RunOutcome.blocksForever ∧
    (getGpsLocation happyEnv).responses = [] ∧
    (getGpsLocation happyEnv).finalFile
      = some (some (Json.obj [("latitude", Json.num 12.34), ("longitude", Json.num 56.78)])) :=
  ⟨rfl, rfl, rfl⟩

/-- C2: on the valid callback POST the handler performs the Handoff
Record write and then enters the shutdown request, inside which it blocks
forever: the performed events stop there, no response event follows, the
handler never completes (status none), the shutdown flag was set, and the
record carrying the posted coordinates is on disk. The claimed order
write, then response, then shutdown is impossible: the 200 of line 103 is
never executed. -/
theorem post_deadlock_C2 :
    (do_POST "/location_data" (PostBody.parsed validCoordBody)).events
      = [Event.writeRecord, Event.requestShutdown] ∧
    (do_POST "/location_data" (PostBody.parsed validCoordBody)).status = none ∧
    (do_POST "/location_data" (PostBody.parsed validCoordBody)).shutdown = true ∧
    (do_POST "/location_data" (PostBody.parsed validCoordBody)).fileWritten
      = some (Json.obj [("latitude", Json.num 12.34), ("longitude", Json.num 56.78)]) :=
  ⟨rfl, rfl, rfl, rfl⟩

/-- C3 counterexample: a POST to /location_data whose JSON body has
latitude 12.34 and no longitude is answered 404, not 500 as the claim
states: the failed presence check falls through to the 404 at the end of
do_POST instead of raising into the except branch. -/
theorem post_missing_lon_counterexample_C3 :
    (do_POST "/location_data"
        (PostBody.parsed (Json.obj [("latitude", Json.num 12.34)]))).status = some 404 ∧
    (do_POST "/location_data"
        (PostBody.parsed (Json.obj [("latitude", Json.num 12.34)]))).status ≠ some 500 :=
  ⟨rfl, by decide⟩

/-- C3 amended: a POST to /location_data whose body fails parsing (any
raising body) is answered 500; one whose body parses to a dict with
latitude or longitude missing or null is answered 404; in both cases no
shutdown is requested and no Handoff Record is written. -/
theorem post_invalid_C3 (fields : List (String × Json))
    (h : dictGet fields "latitude" = none ∨ dictGet fields "longitude" = none) :
    ((do_POST "/location_data" (PostBody.parsed (Json.obj fields))).status = some 404 ∧
     (do_POST "/location_data" (PostBody.parsed (Json.obj fields))).shutdown = false ∧
     (do_POST "/location_data" (PostBody.parsed (Json.obj fields))).fileWritten = none) ∧
    ((do_POST "/location_data" PostBody.malformed).status = some 500 ∧
     (do_POST "/location_data" PostBody.malformed).respBody = RespBody.empty ∧
     (do_POST "/location_data" PostBody.malformed).shutdown = false ∧
     (do_POST "/location_data" PostBody.malformed).fileWritten = none) := by
  constructor
  · rcases h with h | h
    · cases hlon : dictGet fields "longitude" <;> simp [do_POST, h, hlon]
    · cases hlat : dictGet fields "latitude" <;> simp [do_POST, h, hlat]
  · exact ⟨rfl, rfl, rfl, rfl⟩

/-- C3 witness: the amended invalid-POST theorem applied to the concrete
missing-longitude body. -/
theorem post_invalid_C3_witness :
    ((do_POST "/location_data"
        (PostBody.parsed (Json.obj [("latitude", Json.num 12.34)]))).status = some 404 ∧
     (do_POST "/location_data"
        (PostBody.parsed (Json.obj [("latitude", Json.num 12.34)]))).shutdown = false ∧
     (do_POST "/location_data"
        (PostBody.parsed (Json.obj [("latitude", Json.num 12.34)]))).fileWritten = none) ∧
    ((do_POST "/location_data" PostBody.malformed).status = some 500 ∧
     (do_POST "/location_data" PostBody.malformed).respBody = RespBody.empty ∧
     (do_POST "/location_data" PostBody.malformed).shutdown = false ∧
     (do_POST "/location_data" PostBody.malformed).fileWritten = none) :=
  post_invalid_C3 [("latitude", Json.num 12.34)] (Or.inr rfl)

/-- C4 counterexample: when the bind fails, get_gps_location does not
propagate the exception at all: it returns normally with None. -/
theorem bind_failure_counterexample_C4 :
    (getGpsLocation bindFailEnv).outcome = RunOutcome.returns none ∧
    (getGpsLocation bindFailEnv).outcome ≠ RunOutcome.raises :=
  ⟨rfl, by simp [getGpsLocation, bindFailEnv]⟩

/-- C4 amended: a bind failure is caught inside get_gps_location by its
except branch and converted into a None return; there is no retry and no
alternate port, and no Handoff Record is created. -/
theorem bind_failure_C4 (env : Env) (hb : env.bindFails = true)
    (hc : env.cleanupRemoveFails = false) :
    (getGpsLocation env).outcome = RunOutcome.returns none ∧
    (getGpsLocation env).finalFile = none ∧
    (getGpsLocation env).responses = [] := by
  simp [getGpsLocation, hb, hc]

/-- C4 witness: the amended bind-failure theorem at the concrete
bind-failure environment. -/
theorem bind_failure_C4_witness :
    (getGpsLocation bindFailEnv).outcome = RunOutcome.returns none ∧
    (getGpsLocation bindFailEnv).finalFile = none ∧
    (getGpsLocation bindFailEnv).responses = [] :=
  bind_failure_C4 bindFailEnv rfl rfl

/-- C5 counterexample: at post-shutdown read time a malformed Handoff
Record is not deleted: json.load raises before os.remove is reached, the
exception is caught by the outer except, None is returned and the record
stays on disk. -/
theorem malformed_record_counterexample_C5 :
    (readPhase (some none)).1 = none ∧
    (readPhase (some none)).2 = some none ∧
    (readPhase (some none)).2 ≠ none :=
  ⟨rfl, rfl, by simp [readPhase]⟩

/-- C5 amended: in the post-shutdown read logic a record whose content
parses to a dict is always deleted, and the Coordinate is returned when
both fields are present and non-null; a record whose content parses to a
non-dict JSON value survives, because coords.get raises AttributeError
before os.remove, and None is returned; a record whose content does not
parse at all likewise survives (json.load raises first) with None
returned. -/
theorem read_consume_C5 (fields : List (String × Json)) :
    (readPhase (some (some (Json.obj fields)))).2 = none ∧
    (∀ lat lon, dictGet fields "latitude" = some lat →
      dictGet fields "longitude" = some lon →
      (readPhase (some (some (Json.obj fields)))).1 = some (lat, lon)) ∧
    (∀ j : Json, j.isObj = false →
      (readPhase (some (some j))).1 = none ∧ (readPhase (some (some j))).2 = some (some j)) ∧
    (readPhase (some none)).1 = none ∧
    (readPhase (some none)).2 = some none := by
  refine ⟨?_, ?_, ?_, rfl, rfl⟩
  · cases hlat : dictGet fields "latitude" <;> cases hlon : dictGet fields "longitude" <;>
      simp [readPhase, hlat, hlon]
  · intro lat lon hlat hlon
    simp [readPhase, hlat, hlon]
  · intro j hj
    cases j with
    | null => exact ⟨rfl, rfl⟩
    | num q => exact ⟨rfl, rfl⟩
    | str s => exact ⟨rfl, rfl⟩
    | obj fs => simp [Json.isObj] at hj

/-- C5 witness: the amended consume theorem applied to the concrete valid
record of the P3 scenario. -/
theorem read_consume_C5_witness :
    (readPhase (some (some validCoordBody))).1 = some (Json.num 12.34, Json.num 56.78) :=
  (read_consume_C5 [("latitude", Json.num 12.34), ("longitude", Json.num 56.78)]).2.1
    (Json.num 12.34) (Json.num 56.78) rfl rfl

/-- C6 counterexample: for the P7 forecast, with pop values 0.1, 0.9,
null and 150, the computed rain probability is not 90 percent. -/
theorem rain_probability_counterexample_C6 :
    rainProbability p7Forecast ≠ "90%" := by
  rw [p7_rain_eval]
  decide

/-- C6 amended: rain_probability is the maximum normalized pop over the
first 8 forecast entries, where null becomes 0, a negative value becomes
0, a value in the interval from 1 exclusive to 100 inclusive is divided
by 100, a value above 100 is clamped to 1, and a value already in the
unit interval is kept; for the P7 pop values 0.1, 0.9, null, 150 the
result is 100 percent, because the clamped 150 contributes 1 and
dominates the maximum. -/
theorem rain_probability_C6 :
    rainProbability p7Forecast = "100%" ∧
    (∀ p : ℚ, p < 0 → normalizePop p = 0) ∧
    (∀ p : ℚ, 0 ≤ p → p ≤ 1 → normalizePop p = p) ∧
    (∀ p : ℚ, 1 < p → p ≤ 100 → normalizePop p = p / 100) ∧
    (∀ p : ℚ, 100 < p → normalizePop p = 1) := by
  refine ⟨p7_rain_eval, ?_, ?_, ?_, ?_⟩
  · intro p hp
    have h1 : ¬ (0 : ℚ) > 1 := by norm_num
    simp [normalizePop, hp, h1]
  · intro p h0 h1
    have hneg : ¬ p < 0 := not_lt.mpr h0
    have hgt : ¬ p > 1 := not_lt.mpr h1
    simp [normalizePop, hneg, hgt]
  · intro p h1 h100
    have hneg : ¬ p < 0 := by linarith
    have hgt : p > 1 := h1
    simp [normalizePop, hneg, hgt, h100]
  · intro p h100
    have hneg : ¬ p < 0 := by linarith
    have hgt : p > 1 := by linarith
    have hnle : ¬ p ≤ 100 := not_le.mpr h100
    have hmin : min (1 : ℚ) p = 1 := min_eq_left (by linarith)
    simp [normalizePop, hneg, hgt, hnle, hmin]

/-- C6 witness: the amended normalization theorem evaluated at the
clamped out-of-range pop value 150. -/
theorem rain_probability_C6_witness : normalizePop 150 = 1 :=
  rain_probability_C6.2.2.2.2 150 (by norm_num)

/-- C7: fetch_weather_details always uses the literal key embedded at its
call to _get_api_key, for every api_key argument and every environment
value; in particular an explicit user key is not the key used. This
contradicts the claim that the explicit key overrides the
environment-sourced key and that no literal key is embedded. -/
theorem embedded_key_C7 :
    (∀ apiKeyParam envKey, fetchWeatherKey apiKeyParam envKey = some embeddedLiteralKey) ∧
    fetchWeatherKey (some "user-key") (some "env-key") ≠ some "user-key" := by
  constructor
  · intro apiKeyParam envKey
    rfl
  · decide

/-- C8 counterexample: a PUT to /location_data and a DELETE to the root
path are answered 501 Unsupported method by the http.server base class,
not 404 as the claim states. -/
theorem put_delete_counterexample_C8 :
    (handleRequest (mkRequest Method.PUT "/location_data" PostBody.malformed)).status
      = some 501 ∧
    (handleRequest (mkRequest Method.PUT "/location_data" PostBody.malformed)).status
      ≠ some 404 ∧
    (handleRequest (mkRequest Method.DELETE "/" PostBody.malformed)).status = some 501 :=
  ⟨rfl, by decide, rfl⟩

/-- C8 amended: a POST to any path other than /location_data is answered
404, whatever its body; a request whose method has no do_ handler, such
as PUT or DELETE, is answered 501 Unsupported method on every path. -/
theorem dispatch_C8 (path : String) (b : PostBody) (h : path ≠ "/location_data") :
    (handleRequest (mkRequest Method.POST path b)).status = some 404 ∧
    (∀ b2, (handleRequest (mkRequest Method.PUT path b2)).status = some 501) ∧
    (∀ b2, (handleRequest (mkRequest Method.DELETE path b2)).status = some 501) := by
  refine ⟨?_, fun b2 => rfl, fun b2 => rfl⟩
  cases b <;> simp [handleRequest, mkRequest, do_POST, h]

/-- C8 witness: the amended dispatch theorem at the concrete path
/nonexistent. -/
theorem dispatch_C8_witness :
    (handleRequest (mkRequest Method.POST "/nonexistent" PostBody.malformed)).status
      = some 404 :=
  (dispatch_C8 "/nonexistent" PostBody.malformed (by decide)).1

/-- C9 counterexample: the non-numeric body is not answered 200, because
the handler that accepted it blocks forever inside shutdown before
send_response (it never completes at all), and the run never returns the
pair of string values (it never returns anything). -/
theorem non_numeric_counterexample_C9 :
    (do_POST "/location_data" (PostBody.parsed stringCoordBody)).status ≠ some 200 ∧
    (getGpsLocation stringPostEnv).outcome
      ≠ RunOutcome.returns (some (Json.str "abc", Json.str "xyz")) := by
  constructor
  · decide
  · have h : (getGpsLocation stringPostEnv).outcome = RunOutcome.blocksForever := rfl
    rw [h]
    simp

/-- C9 amended: the callback validation checks only that latitude and
longitude are present and non-null, not that they are numeric: the body
with string values abc and xyz passes the check and the Handoff Record is
written with the non-numeric values, shutdown is requested — but the
handler then blocks forever inside the shutdown call, so no 200 is sent
(the handler never completes) and get_gps_location never returns; the
read logic of lines 142 to 153, applied to the written record, would
yield the pair of non-numeric values. -/
theorem non_numeric_validation_C9 :
    (do_POST "/location_data" (PostBody.parsed stringCoordBody)).fileWritten
      = some (Json.obj [("latitude", Json.str "abc"), ("longitude", Json.str "xyz")]) ∧
    (do_POST "/location_data" (PostBody.parsed stringCoordBody)).shutdown = true ∧
    (do_POST "/location_data" (PostBody.parsed stringCoordBody)).status = none ∧
    (readPhase (some (some stringCoordBody))).1
      = some (Json.str "abc", Json.str "xyz") ∧
    (getGpsLocation stringPostEnv).outcome = RunOutcome.blocksForever :=
  ⟨rfl, rfl, rfl, rfl, rfl⟩

/-- C10 counterexample: when a stale record exists and the pre-run
cleanup os.remove raises, the exception escapes get_gps_location, because
lines 132 to 133 run before the try block: the function does propagate an
exception. -/
theorem cleanup_propagates_counterexample_C10 :
    (getGpsLocation staleCleanupFailEnv).outcome = RunOutcome.raises :=
  rfl

/-- C10 amended: when the pre-try cleanup remove does not raise, no
exception ever escapes get_gps_location: the only fault point inside the
try that any run can reach is the bind, and a bind failure is caught and
converted into a None return; every run that binds successfully never
returns at all (serve_forever never exits), so the read-phase file and
parse failures are never reached in a run — in the read logic taken by
itself, a parse failure is likewise converted into a None result by the
outer except. -/
theorem no_propagation_inside_try_C10 (env : Env) (hc : env.cleanupRemoveFails = false) :
    (getGpsLocation env).outcome ≠ RunOutcome.raises ∧
    (env.bindFails = true → (getGpsLocation env).outcome = RunOutcome.returns none) ∧
    (env.bindFails = false → (getGpsLocation env).outcome = RunOutcome.blocksForever) ∧
    (readPhase (some none)).1 = none := by
  cases hb : env.bindFails <;> simp [getGpsLocation, readPhase, hc, hb]

/-- C10 witness: the amended theorem at the concrete P3 environment,
where the call never returns and in particular raises nothing. -/
theorem no_propagation_inside_try_C10_witness :
    (getGpsLocation happyEnv).outcome ≠ RunOutcome.raises ∧
    (getGpsLocation happyEnv).outcome = RunOutcome.blocksForever :=
  ⟨(no_propagation_inside_try_C10 happyEnv rfl).1,
   (no_propagation_inside_try_C10 happyEnv rfl).2.2.1 rfl⟩

end Weather
